import Mathlib

/-!
Shallow embedding of the recipe-sharing backend
(`backend/src/index.ts`, `backend/src/models/user.ts`,
`backend/src/models/recipe.ts`).

Modelling choices:
* MongoDB collections are lists of records; `findOne` is `List.find?`,
  `updateOne` / `deleteOne` are first-match list transformations, and
  `deleteMany` is `List.filter`.
* `ObjectId` values are their 24-character hexadecimal string form;
  `new ObjectId(s)` is `makeObjectId s`, whose `none` result models the
  constructor throwing on a malformed argument.
* JWT signature verification is a function parameter
  `verify : String → String → Option JwtPayload` taking the token and the
  secret; `none` models `jwt.verify` throwing.  `jwt.sign` output is
  passed in as an abstract `signed` string (its value depends on a random
  `jwtid`).
* JavaScript truthiness on strings (`!s` holds for `undefined` and `""`)
  is modelled by `jsString?`, which collapses `some ""` to `none`.
* bcrypt hashing draws a fresh salt; the salt is an explicit `Nat`
  parameter and the hash an injective pairing of salt and plaintext.
-/

namespace RecipeApi

/-- JavaScript truthiness on an optional string: `undefined` and `""` are
falsy, everything else passes through. -/
def jsString? (o : Option String) : Option String :=
  match o with
  | some s => if s = "" then none else some s
  | none => none

/-- `authHeader?.startsWith("Bearer ") ? authHeader.slice(7) : undefined`
(index.ts, token extraction repeated in `requireAuth` and each protected
handler). -/
def bearerToken (authHeader : Option String) : Option String :=
  match authHeader with
  | some h => if "Bearer ".data.isPrefixOf h.data then some (h.drop 7) else none
  | none => none

/-- The token a handler acts on: the extracted bearer token, with the empty
token counting as absent (`if (!token)`). -/
def extractToken (authHeader : Option String) : Option String :=
  jsString? (bearerToken authHeader)

/-- Hexadecimal digit test, used by the `ObjectId` well-formedness check. -/
def isHexDigit (c : Char) : Bool :=
  (('0' ≤ c) && (c ≤ '9')) || (('a' ≤ c) && (c ≤ 'f')) || (('A' ≤ c) && (c ≤ 'F'))

/-- `ObjectId.isValid` on a string argument: exactly 24 hexadecimal
characters. -/
def isValidObjectId (s : String) : Bool :=
  s.data.length == 24 && s.data.all isHexDigit

/-- `new ObjectId(s)`: `none` models the constructor throwing on a
malformed id string. -/
def makeObjectId (s : String) : Option String :=
  if isValidObjectId s then some s else none

/-- A stored account document (`IUser` plus the store-assigned `_id`). -/
structure User where
  _id : String
  username : String
  email : String
  password : String
deriving Repr, DecidableEq

/-- The account as returned to clients: every `User` field except the
password hash (`sanitizeUser`, models/user.ts). -/
structure SanitizedUser where
  _id : String
  username : String
  email : String
deriving Repr, DecidableEq

/-- models/user.ts `sanitizeUser`: destructures away `password` and keeps
the rest of the record. -/
def sanitizeUser (u : User) : SanitizedUser :=
  { _id := u._id, username := u.username, email := u.email }

/-- A stored recipe document (`IRecipe` plus the store-assigned `_id`). -/
structure Recipe where
  _id : String
  title : String
  description : String
  ingredients : List String
  instructions : String
  ownerId : String
  ownerUsername : Option String
deriving Repr, DecidableEq

/-- The document store: the `users` and `recipes` collections. -/
structure DB where
  users : List User
  recipes : List Recipe
deriving Repr, DecidableEq

/-- The claims of a verified JWT that the handlers read
(`payload?.sub`, `payload?.username`). -/
structure JwtPayload where
  sub : Option String
  username : Option String
deriving Repr, DecidableEq

/-- Abstract JWT signature verification: token and secret to payload;
`none` models `jwt.verify` throwing. -/
abbrev JwtVerify := String → String → Option JwtPayload

/-- models/user.ts `hashPassword`: bcrypt with a fresh salt, modelled as an
injective pairing of the drawn salt and the plaintext. -/
def hashPassword (salt : Nat) (plainPassword : String) : String :=
  "bcrypt$" ++ toString salt ++ "$" ++ plainPassword

/-- The characters after the second `$` of a stored hash (the plaintext
slot of `hashPassword`). -/
def afterSecondDollar (l : List Char) : Option (List Char) :=
  match l.dropWhile (fun c => c ≠ '$') with
  | '$' :: rest =>
    match rest.dropWhile (fun c => c ≠ '$') with
    | '$' :: rest2 => some rest2
    | _ => none
  | _ => none

/-- models/user.ts `comparePassword`: bcrypt compare of a candidate against
a stored hash; never throws, returns `false` on mismatch or malformed
hash. -/
def comparePassword (candidatePassword hashedPassword : String) : Bool :=
  match afterSecondDollar hashedPassword.data with
  | some pwChars => candidatePassword.data == pwChars
  | none => false

/-- Outcome of the `requireAuth` middleware. -/
inductive AuthResult where
  | missingToken
  | missingConfig
  | invalidToken
  | authorized
deriving Repr, DecidableEq

/-- index.ts `requireAuth`: extract the bearer token, then check the
signing secret, then verify the token, mirroring the code's order. -/
def requireAuth (verify : JwtVerify) (secret authHeader : Option String) : AuthResult :=
  match bearerToken authHeader with
  | none => .missingToken
  | some t =>
    if t = "" then .missingToken
    else
      match secret with
      | none => .missingConfig
      | some s =>
        if s = "" then .missingConfig
        else
          match verify t s with
          | some _ => .authorized
          | none => .invalidToken

/-- A JSON response: status code plus either an error `{message}`, a
success `{message}`, or a success body. -/
inductive Response where
  | err (status : Nat) (message : String)
  | okMsg (status : Nat) (message : String)
  | okUser (status : Nat) (user : SanitizedUser)
  | okLogin (status : Nat) (user : SanitizedUser) (token : String)
  | okRecipe (status : Nat) (recipe : Recipe)
deriving Repr, DecidableEq

/-- The HTTP status code of a response. -/
def Response.statusCode : Response → Nat
  | .err s _ => s
  | .okMsg s _ => s
  | .okUser s _ => s
  | .okLogin s _ _ => s
  | .okRecipe s _ => s

/-- The error response `requireAuth` sends for each failing outcome;
`none` when the middleware calls `next()`. -/
def authErrResponse : AuthResult → Option Response
  | .missingToken => some (.err 401 "Missing token")
  | .missingConfig => some (.err 500 "JWT secret not configured")
  | .invalidToken => some (.err 401 "Invalid token")
  | .authorized => none

/-- A `$set` update document: the recipe fields present in the patch. -/
structure RecipeUpdate where
  title : Option String
  description : Option String
  ingredients : Option (List String)
  instructions : Option String
deriving Repr, DecidableEq

/-- Apply a `$set` update to one recipe document: each present field
overwrites, absent fields are kept. -/
def applyUpdate (u : RecipeUpdate) (r : Recipe) : Recipe :=
  { r with
    title := u.title.getD r.title
    description := u.description.getD r.description
    ingredients := u.ingredients.getD r.ingredients
    instructions := u.instructions.getD r.instructions }

/-- `updateOne(filter, {$set: u})`: update the first matching document,
returning `matchedCount` and the updated collection. -/
def updateOneRecipe (p : Recipe → Bool) (u : RecipeUpdate) :
    List Recipe → Nat × List Recipe
  | [] => (0, [])
  | r :: rest =>
    if p r then (1, applyUpdate u r :: rest)
    else
      let res := updateOneRecipe p u rest
      (res.1, r :: res.2)

/-- `deleteOne(filter)` on recipes: delete the first matching document,
returning `deletedCount` and the remaining collection. -/
def deleteOneRecipe (p : Recipe → Bool) : List Recipe → Nat × List Recipe
  | [] => (0, [])
  | r :: rest =>
    if p r then (1, rest)
    else
      let res := deleteOneRecipe p rest
      (res.1, r :: res.2)

/-- `deleteOne(filter)` on users: delete the first matching document,
returning `deletedCount` and the remaining collection. -/
def deleteOneUser (p : User → Bool) : List User → Nat × List User
  | [] => (0, [])
  | u :: rest =>
    if p u then (1, rest)
    else
      let res := deleteOneUser p rest
      (res.1, u :: res.2)

/-- A JSON value in the `ingredients` body slot: either an array of
strings or some non-array value (`Array.isArray` distinguishes them). -/
inductive IngredientsField where
  | arr (xs : List String)
  | nonArray
deriving Repr, DecidableEq

/-- `Array.isArray(ingredients)` on the optional body field. -/
def isArrayField (o : Option IngredientsField) : Bool :=
  match o with
  | some (.arr _) => true
  | _ => false

/-- The body of `POST /api/register` and `POST /api/login`: each field may
be absent. -/
structure AuthBody where
  username : Option String
  email : Option String
  password : Option String
deriving Repr, DecidableEq

/-- The body of `POST /api/recipes` and `PATCH /api/recipes/:id`: each
recipe field may be absent, and `ingredients` may be a non-array value. -/
structure RecipeBody where
  title : Option String
  description : Option String
  ingredients : Option IngredientsField
  instructions : Option String
deriving Repr, DecidableEq

/-- index.ts `POST /api/register`: reject missing fields, reject an
existing username or email with 409, otherwise hash the password, insert
the account and return it sanitized with 201.  `salt` is the bcrypt salt
drawn by `genSalt`, `freshId` the store-assigned `_id`. -/
def register (body : AuthBody) (salt : Nat) (freshId : String) (db : DB) :
    Response × DB :=
  match jsString? body.username, jsString? body.email, jsString? body.password with
  | some un, some em, some pw =>
    (match db.users.find? (fun u => u.username == un || u.email == em) with
     | some _ => (.err 409 "User already exists", db)
     | none =>
       let u : User :=
         { _id := freshId, username := un, email := em, password := hashPassword salt pw }
       (.okUser 201 (sanitizeUser u), { db with users := db.users ++ [u] }))
  | _, _, _ => (.err 400 "Missing required fields", db)

/-- index.ts `POST /api/login`: `identifier = username ?? email`; reject
missing fields, then missing secret; look the account up by
username-or-email, compare the password, and answer 401
`"Invalid credentials"` on either failure; on success return the
sanitized account and the signed token (`signed` stands for the
`jwt.sign` output). -/
def login (body : AuthBody) (secret : Option String) (signed : String) (db : DB) :
    Response :=
  match jsString? (body.username <|> body.email), jsString? body.password with
  | some ident, some pw =>
    (match jsString? secret with
     | none => .err 500 "JWT secret not configured"
     | some _ =>
       match db.users.find? (fun u => u.username == ident || u.email == ident) with
       | none => .err 401 "Invalid credentials"
       | some user =>
         if comparePassword pw user.password then
           .okLogin 200 (sanitizeUser user) signed
         else
           .err 401 "Invalid credentials")
  | _, _ => .err 400 "Missing required fields"

/-- index.ts `GET /api/recipes/:id` (public): `new ObjectId(id)` throwing
is caught and answered with 400 `"Invalid recipe id"`; a missing document
is 404 `"Recipe not found"`. -/
def getRecipe (idParam : String) (db : DB) : Response :=
  match makeObjectId idParam with
  | none => .err 400 "Invalid recipe id"
  | some recipeId =>
    match db.recipes.find? (fun r => r._id == recipeId) with
    | none => .err 404 "Recipe not found"
    | some r => .okRecipe 200 r

/-- index.ts `POST /api/recipes` handler body (after `requireAuth`):
re-extract the token and secret, validate the body by truthiness
(`!title || !description || !Array.isArray(ingredients) || !instructions`),
verify the token, and insert the recipe owned by the token's subject.
`freshId` is the store-assigned `_id`. -/
def createRecipe (verify : JwtVerify) (secret authHeader : Option String)
    (body : RecipeBody) (freshId : String) (db : DB) : Response × DB :=
  match extractToken authHeader with
  | none => (.err 401 "Missing token", db)
  | some t =>
    match jsString? secret with
    | none => (.err 500 "JWT secret not configured", db)
    | some s =>
      if !(jsString? body.title).isSome || !(jsString? body.description).isSome
          || !isArrayField body.ingredients
          || !(jsString? body.instructions).isSome then
        (.err 400 "Missing or invalid fields", db)
      else
        match verify t s with
        | none => (.err 500 "Recipe creation failed", db)
        | some payload =>
          match jsString? payload.sub with
          | none => (.err 401 "Invalid token", db)
          | some sub =>
            match makeObjectId sub with
            | none => (.err 500 "Recipe creation failed", db)
            | some ownerId =>
              let xs := match body.ingredients with
                | some (.arr l) => l
                | _ => []
              let r : Recipe :=
                { _id := freshId
                  title := body.title.getD ""
                  description := body.description.getD ""
                  ingredients := xs
                  instructions := body.instructions.getD ""
                  ownerId := ownerId
                  ownerUsername := payload.username }
              (.okRecipe 201 r, { db with recipes := db.recipes ++ [r] })

/-- The `$set` document `PATCH /api/recipes/:id` builds: exactly the
fields present in the body (`!== undefined`). -/
def mkUpdate (body : RecipeBody) : RecipeUpdate :=
  { title := body.title
    description := body.description
    ingredients :=
      match body.ingredients with
      | some (.arr xs) => some xs
      | _ => none
    instructions := body.instructions }

/-- `Object.keys(update).length === 0` for the patch body: no recognized
field present. -/
def updateEmpty (body : RecipeBody) : Bool :=
  body.title == none && body.description == none
    && body.ingredients == none && body.instructions == none

/-- index.ts `PATCH /api/recipes/:id` handler body (after `requireAuth`):
token and secret re-checks, body validation (non-array `ingredients` is
400, an empty update document is 400), token verification, subject check,
`ObjectId.isValid` guard on the id (400 on failure), then
`updateOne({_id, ownerId}, {$set})` with 404 when nothing matched, and
the updated document looked up again for the 200 body. -/
def patchRecipe (verify : JwtVerify) (secret authHeader : Option String)
    (body : RecipeBody) (idParam : String) (db : DB) : Response × DB :=
  match extractToken authHeader with
  | none => (.err 401 "Missing token", db)
  | some t =>
    match jsString? secret with
    | none => (.err 500 "JWT secret not configured", db)
    | some s =>
      if body.ingredients == some .nonArray then
        (.err 400 "Invalid ingredients", db)
      else if updateEmpty body then
        (.err 400 "No valid fields to update", db)
      else
        match verify t s with
        | none => (.err 500 "Recipe update failed", db)
        | some payload =>
          match jsString? payload.sub with
          | none => (.err 401 "Invalid token", db)
          | some sub =>
            match makeObjectId sub with
            | none => (.err 500 "Recipe update failed", db)
            | some ownerId =>
              if !isValidObjectId idParam then
                (.err 400 "Invalid recipe id", db)
              else
                let res := updateOneRecipe
                  (fun r => r._id == idParam && r.ownerId == ownerId)
                  (mkUpdate body) db.recipes
                if res.1 == 0 then
                  (.err 404 "Recipe not found", { db with recipes := res.2 })
                else
                  match res.2.find? (fun r => r._id == idParam) with
                  | none => (.err 500 "Recipe update failed", { db with recipes := res.2 })
                  | some updated => (.okRecipe 200 updated, { db with recipes := res.2 })

/-- index.ts `DELETE /api/recipes/:id` handler body (after `requireAuth`):
token and secret re-checks, token verification, subject check, then
`new ObjectId(req.params.id)` with no `isValid` guard — a malformed id
throws into the route's catch and is answered 500
`"Recipe deletion failed"` — then `deleteOne({_id, ownerId})` with 404
when nothing was deleted. -/
def deleteRecipe (verify : JwtVerify) (secret authHeader : Option String)
    (idParam : String) (db : DB) : Response × DB :=
  match extractToken authHeader with
  | none => (.err 401 "Missing token", db)
  | some t =>
    match jsString? secret with
    | none => (.err 500 "JWT secret not configured", db)
    | some s =>
      match verify t s with
      | none => (.err 500 "Recipe deletion failed", db)
      | some payload =>
        match jsString? payload.sub with
        | none => (.err 401 "Invalid token", db)
        | some sub =>
          match makeObjectId sub with
          | none => (.err 500 "Recipe deletion failed", db)
          | some ownerId =>
            match makeObjectId idParam with
            | none => (.err 500 "Recipe deletion failed", db)
            | some recipeId =>
              let res := deleteOneRecipe
                (fun r => r._id == recipeId && r.ownerId == ownerId) db.recipes
              if res.1 == 0 then
                (.err 404 "Recipe not found", { db with recipes := res.2 })
              else
                (.okMsg 200 "Recipe deleted", { db with recipes := res.2 })

/-- index.ts `DELETE /api/account` handler body (after `requireAuth`):
token and secret re-checks, token verification, subject check, then
`deleteMany({ownerId})` on recipes FOLLOWED by `deleteOne({_id})` on
users; a zero `deletedCount` is answered 404 `"User not found"`, but the
recipe deletions have already been applied. -/
def deleteAccount (verify : JwtVerify) (secret authHeader : Option String)
    (db : DB) : Response × DB :=
  match extractToken authHeader with
  | none => (.err 401 "Missing token", db)
  | some t =>
    match jsString? secret with
    | none => (.err 500 "JWT secret not configured", db)
    | some s =>
      match verify t s with
      | none => (.err 500 "Account deletion failed", db)
      | some payload =>
        match jsString? payload.sub with
        | none => (.err 401 "Invalid token", db)
        | some sub =>
          match makeObjectId sub with
          | none => (.err 500 "Account deletion failed", db)
          | some userId =>
            let recipes2 := db.recipes.filter (fun r => !(r.ownerId == userId))
            let res := deleteOneUser (fun u => u._id == userId) db.users
            if res.1 == 0 then
              (.err 404 "User not found", { users := res.2, recipes := recipes2 })
            else
              (.okMsg 200 "Account deleted", { users := res.2, recipes := recipes2 })

/-- Compose `requireAuth` with a protected handler: the gate's error
response short-circuits, otherwise the handler runs. -/
def withAuth (verify : JwtVerify) (secret authHeader : Option String)
    (handler : Response × DB) (db : DB) : Response × DB :=
  match authErrResponse (requireAuth verify secret authHeader) with
  | some r => (r, db)
  | none => handler

/-- The full `POST /api/recipes` route: `requireAuth` then the handler. -/
def createRecipeRoute (verify : JwtVerify) (secret authHeader : Option String)
    (body : RecipeBody) (freshId : String) (db : DB) : Response × DB :=
  withAuth verify secret authHeader
    (createRecipe verify secret authHeader body freshId db) db

/-- The full `PATCH /api/recipes/:id` route: `requireAuth` then the
handler. -/
def patchRecipeRoute (verify : JwtVerify) (secret authHeader : Option String)
    (body : RecipeBody) (idParam : String) (db : DB) : Response × DB :=
  withAuth verify secret authHeader
    (patchRecipe verify secret authHeader body idParam db) db

/-- The full `DELETE /api/recipes/:id` route: `requireAuth` then the
handler. -/
def deleteRecipeRoute (verify : JwtVerify) (secret authHeader : Option String)
    (idParam : String) (db : DB) : Response × DB :=
  withAuth verify secret authHeader
    (deleteRecipe verify secret authHeader idParam db) db

/-- The full `DELETE /api/account` route: `requireAuth` then the
handler. -/
def deleteAccountRoute (verify : JwtVerify) (secret authHeader : Option String)
    (db : DB) : Response × DB :=
  withAuth verify secret authHeader
    (deleteAccount verify secret authHeader db) db

/-- A concrete verifier for concrete runs: accepts exactly the token
`"tok"` under the secret `"sec"`, yielding a payload whose subject is a
well-formed 24-hex id. -/
def verifyStub : JwtVerify := fun t s =>
  if t == "tok" && s == "sec" then
    some { sub := some "aaaaaaaaaaaaaaaaaaaaaaaa", username := some "alice" }
  else none

/-- A stored account matching `verifyStub`'s subject. -/
def aliceU : User :=
  { _id := "aaaaaaaaaaaaaaaaaaaaaaaa", username := "alice", email := "alice@mail"
    password := hashPassword 3 "right" }

/-- A recipe owned by a different account than `verifyStub`'s subject. -/
def bobRecipe : Recipe :=
  { _id := "cccccccccccccccccccccccc", title := "Stew", description := "Hearty"
    ingredients := ["beef"], instructions := "Cook."
    ownerId := "bbbbbbbbbbbbbbbbbbbbbbbb", ownerUsername := some "bob" }

/-- A recipe owned by `verifyStub`'s subject, with no matching stored
account. -/
def ghostRecipe : Recipe :=
  { _id := "cccccccccccccccccccccccc", title := "Stew", description := "Hearty"
    ingredients := ["beef"], instructions := "Cook."
    ownerId := "aaaaaaaaaaaaaaaaaaaaaaaa", ownerUsername := some "alice" }

/-- Store with one account and one recipe owned by someone else. -/
def db1 : DB := { users := [aliceU], recipes := [bobRecipe] }

/-- Store whose only recipe is owned by an account that no longer
exists. -/
def dbGhost : DB := { users := [], recipes := [ghostRecipe] }

/-- The empty store. -/
def emptyDB : DB := { users := [], recipes := [] }

/-- Store with just the one account. -/
def dbAlice : DB := { users := [aliceU], recipes := [] }

/-- The account inserted by a concrete successful registration. -/
def bobNewU : User :=
  { _id := "eeeeeeeeeeeeeeeeeeeeeeee", username := "bob", email := "bob@mail"
    password := hashPassword 1 "pw" }

/-- `dbAlice` after that registration. -/
def dbAliceBob : DB := { users := [aliceU, bobNewU], recipes := [] }

/-- Store with a recipe owned by `verifyStub`'s subject. -/
def dbOwned : DB := { users := [aliceU], recipes := [ghostRecipe] }

/-- `jsString?` returns `some` exactly for a present, non-empty string. -/
theorem jsString?_eq_some {o : Option String} {t : String}
    (h : jsString? o = some t) : o = some t ∧ ¬t = "" := by
  cases o with
  | none => simp [jsString?] at h
  | some s =>
    by_cases hs : s = ""
    · simp [jsString?, hs] at h
    · simp [jsString?, hs] at h
      exact ⟨by rw [h], h ▸ hs⟩

/-- `jsString?` returns `none` exactly for an absent or empty string. -/
theorem jsString?_eq_none {o : Option String} (h : jsString? o = none) :
    o = none ∨ o = some "" := by
  cases o with
  | none => exact Or.inl rfl
  | some s =>
    by_cases hs : s = ""
    · exact Or.inr (by rw [hs])
    · simp [jsString?, hs] at h

/-- The gate admits a request whose extracted token verifies under the
configured secret. -/
theorem requireAuth_authorized (verify : JwtVerify)
    (secret authHeader : Option String) (t s : String) (p : JwtPayload)
    (ht : extractToken authHeader = some t) (hs : jsString? secret = some s)
    (hv : verify t s = some p) :
    requireAuth verify secret authHeader = .authorized := by
  obtain ⟨hb, htne⟩ := jsString?_eq_some ht
  obtain ⟨hsec, hsne⟩ := jsString?_eq_some hs
  unfold requireAuth
  rw [hb, hsec]
  simp [htne, hsne, hv]

/-- An admitted request runs the protected handler on the untouched
store. -/
theorem withAuth_authorized (verify : JwtVerify)
    (secret authHeader : Option String) (t s : String) (p : JwtPayload)
    (handler : Response × DB) (db : DB)
    (ht : extractToken authHeader = some t) (hs : jsString? secret = some s)
    (hv : verify t s = some p) :
    withAuth verify secret authHeader handler db = handler := by
  rw [withAuth, requireAuth_authorized verify secret authHeader t s p ht hs hv]
  rfl

/-- `updateOne` against a collection with no matching document: zero
`matchedCount`, collection unchanged. -/
theorem updateOneRecipe_no_match (p : Recipe → Bool) (u : RecipeUpdate)
    (rs : List Recipe) (h : ∀ r ∈ rs, p r = false) :
    updateOneRecipe p u rs = (0, rs) := by
  induction rs with
  | nil => rfl
  | cons r rest ih =>
    have hr := h r (List.mem_cons_self r rest)
    have hrest : ∀ x ∈ rest, p x = false :=
      fun x hx => h x (List.mem_cons_of_mem r hx)
    simp [updateOneRecipe, hr, ih hrest]

/-- `deleteOne` against a recipe collection with no matching document:
zero `deletedCount`, collection unchanged. -/
theorem deleteOneRecipe_no_match (p : Recipe → Bool)
    (rs : List Recipe) (h : ∀ r ∈ rs, p r = false) :
    deleteOneRecipe p rs = (0, rs) := by
  induction rs with
  | nil => rfl
  | cons r rest ih =>
    have hr := h r (List.mem_cons_self r rest)
    have hrest : ∀ x ∈ rest, p x = false :=
      fun x hx => h x (List.mem_cons_of_mem r hx)
    simp [deleteOneRecipe, hr, ih hrest]

/-- `deleteOne` against a user collection with no matching document: zero
`deletedCount`, collection unchanged. -/
theorem deleteOneUser_no_match (p : User → Bool)
    (us : List User) (h : ∀ u ∈ us, p u = false) :
    deleteOneUser p us = (0, us) := by
  induction us with
  | nil => rfl
  | cons u rest ih =>
    have hu := h u (List.mem_cons_self u rest)
    have hrest : ∀ x ∈ rest, p x = false :=
      fun x hx => h x (List.mem_cons_of_mem u hx)
    simp [deleteOneUser, hu, ih hrest]

/-- When `updateOne` matched something, the updated collection contains
the rewritten document. -/
theorem updateOneRecipe_mem_of_matched (p : Recipe → Bool) (u : RecipeUpdate)
    (rs : List Recipe) (h : ¬(updateOneRecipe p u rs).1 = 0) :
    ∃ r0, p r0 = true ∧ applyUpdate u r0 ∈ (updateOneRecipe p u rs).2 := by
  induction rs with
  | nil => simp [updateOneRecipe] at h
  | cons r rest ih =>
    by_cases hr : p r
    · exact ⟨r, hr, by simp [updateOneRecipe, hr]⟩
    · have hr' : p r = false := by simpa using hr
      have h2 : ¬(updateOneRecipe p u rest).1 = 0 := by
        simpa [updateOneRecipe, hr'] using h
      obtain ⟨r0, h1, hmem⟩ := ih h2
      exact ⟨r0, h1, by simp [updateOneRecipe, hr', hmem]⟩

/-- `applyUpdate` never changes the `_id` of a document. -/
theorem applyUpdate_id (u : RecipeUpdate) (r : Recipe) :
    (applyUpdate u r)._id = r._id := rfl

/-- C1: for an authenticated update or delete on a recipe id where no
stored recipe matches both the id and the token's subject as owner, both
routes answer exactly 404 `"Recipe not found"` with the store unchanged —
the same constant result whether the id exists under another owner or
does not exist at all, so a non-owner cannot observe existence. -/
theorem c1_owner_scoped_not_found (verify : JwtVerify)
    (secret authHeader : Option String) (body : RecipeBody)
    (idParam t s sub : String) (payload : JwtPayload) (db : DB)
    (ht : extractToken authHeader = some t)
    (hs : jsString? secret = some s)
    (hv : verify t s = some payload)
    (hsub : jsString? payload.sub = some sub)
    (hsubid : isValidObjectId sub = true)
    (hing : ¬body.ingredients = some .nonArray)
    (hne : updateEmpty body = false)
    (hid : isValidObjectId idParam = true)
    (hmiss : ∀ r ∈ db.recipes, ¬(r._id = idParam ∧ r.ownerId = sub)) :
    patchRecipeRoute verify secret authHeader body idParam db
      = (.err 404 "Recipe not found", db) ∧
    deleteRecipeRoute verify secret authHeader idParam db
      = (.err 404 "Recipe not found", db) := by
  have hpred : ∀ r ∈ db.recipes,
      (r._id == idParam && r.ownerId == sub) = false := by
    intro r hr
    have h := hmiss r hr
    simp only [Bool.and_eq_false_iff, beq_eq_false_iff_ne, ne_eq]
    tauto
  constructor
  · rw [patchRecipeRoute,
      withAuth_authorized verify secret authHeader t s payload _ db ht hs hv]
    have hupd := updateOneRecipe_no_match
      (fun r => r._id == idParam && r.ownerId == sub) (mkUpdate body)
      db.recipes hpred
    simp [patchRecipe, ht, hs, hv, hsub, makeObjectId, hsubid, hing, hne,
      hid, hupd]
  · rw [deleteRecipeRoute,
      withAuth_authorized verify secret authHeader t s payload _ db ht hs hv]
    have hdel := deleteOneRecipe_no_match
      (fun r => r._id == idParam && r.ownerId == sub) db.recipes hpred
    simp [deleteRecipe, ht, hs, hv, hsub, makeObjectId, hsubid, hid, hdel]

/-- C1 witness: a non-owner's update and delete of an existing recipe and
of a nonexistent id all yield the identical 404 with the store
untouched. -/
theorem c1_owner_scoped_not_found_witness :
    patchRecipeRoute verifyStub (some "sec") (some "Bearer tok")
        ⟨some "new", none, none, none⟩ "cccccccccccccccccccccccc" db1
      = (.err 404 "Recipe not found", db1) ∧
    deleteRecipeRoute verifyStub (some "sec") (some "Bearer tok")
        "cccccccccccccccccccccccc" db1
      = (.err 404 "Recipe not found", db1) ∧
    patchRecipeRoute verifyStub (some "sec") (some "Bearer tok")
        ⟨some "new", none, none, none⟩ "dddddddddddddddddddddddd" db1
      = (.err 404 "Recipe not found", db1) ∧
    deleteRecipeRoute verifyStub (some "sec") (some "Bearer tok")
        "dddddddddddddddddddddddd" db1
      = (.err 404 "Recipe not found", db1) := by
  have h1 := c1_owner_scoped_not_found verifyStub (some "sec")
    (some "Bearer tok") ⟨some "new", none, none, none⟩
    "cccccccccccccccccccccccc" "tok" "sec" "aaaaaaaaaaaaaaaaaaaaaaaa"
    ⟨some "aaaaaaaaaaaaaaaaaaaaaaaa", some "alice"⟩ db1
    (by decide) (by decide) (by decide) (by decide) (by decide) (by decide)
    (by decide) (by decide) (by decide)
  have h2 := c1_owner_scoped_not_found verifyStub (some "sec")
    (some "Bearer tok") ⟨some "new", none, none, none⟩
    "dddddddddddddddddddddddd" "tok" "sec" "aaaaaaaaaaaaaaaaaaaaaaaa"
    ⟨some "aaaaaaaaaaaaaaaaaaaaaaaa", some "alice"⟩ db1
    (by decide) (by decide) (by decide) (by decide) (by decide) (by decide)
    (by decide) (by decide) (by decide)
  exact ⟨h1.1, h1.2, h2.1, h2.2⟩

/-- C2 counterexample: the single-recipe read of a malformed id is
answered 400 `"Invalid recipe id"`, not `NotFound` — the claim's
`NotFound`-for-malformed reading is false. -/
theorem c2_malformed_read_counterexample :
    (getRecipe "not-an-object-id" { users := [], recipes := [] }).statusCode = 400 ∧
    ¬(getRecipe "not-an-object-id" { users := [], recipes := [] }).statusCode = 404 := by
  decide

/-- C2 (amended): an unauthenticated single-recipe read fails with 404
`"Recipe not found"` when the id is well formed but absent from the
store, and with 400 `"Invalid recipe id"` when the id is malformed (the
`ObjectId` constructor throws into the route's catch). -/
theorem c2_read_single_errors (idParam : String) (db : DB) :
    (isValidObjectId idParam = false →
      getRecipe idParam db = .err 400 "Invalid recipe id") ∧
    (isValidObjectId idParam = true →
      (∀ r ∈ db.recipes, ¬r._id = idParam) →
      getRecipe idParam db = .err 404 "Recipe not found") := by
  constructor
  · intro hbad
    simp [getRecipe, makeObjectId, hbad]
  · intro hok habs
    have hf : db.recipes.find? (fun r => r._id == idParam) = none :=
      List.find?_eq_none.mpr (fun r hr => by simpa using habs r hr)
    simp [getRecipe, makeObjectId, hok, hf]

/-- C2 witness: the amended read semantics at a malformed id and at a
well-formed id absent from the store. -/
theorem c2_read_single_errors_witness :
    getRecipe "not-an-object-id" emptyDB = .err 400 "Invalid recipe id" ∧
    getRecipe "dddddddddddddddddddddddd" emptyDB = .err 404 "Recipe not found" :=
  ⟨(c2_read_single_errors "not-an-object-id" emptyDB).1 (by decide),
   (c2_read_single_errors "dddddddddddddddddddddddd" emptyDB).2 (by decide)
     (by decide)⟩

/-- C5: `sanitizeUser` keeps every stored account field except the
password hash, and the account object of any successful register or login
response is `sanitizeUser` of a stored account. -/
theorem c5_sanitized_responses (u : User) (body : AuthBody)
    (secret : Option String) (signed freshId : String) (salt : Nat) (db : DB) :
    sanitizeUser u = { _id := u._id, username := u.username, email := u.email } ∧
    (∀ su db2, register body salt freshId db = (.okUser 201 su, db2) →
      ∃ v ∈ db2.users, su = sanitizeUser v) ∧
    (∀ su tok, login body secret signed db = .okLogin 200 su tok →
      ∃ v ∈ db.users, su = sanitizeUser v) := by
  refine ⟨rfl, ?_, ?_⟩
  · intro su db2 hreg
    rw [register] at hreg
    split at hreg
    · split at hreg
      · exact absurd (congrArg Prod.fst hreg) (by simp)
      · simp only [Prod.mk.injEq, Response.okUser.injEq] at hreg
        obtain ⟨⟨-, hsu⟩, hdb2⟩ := hreg
        refine ⟨_, ?_, hsu.symm⟩
        rw [← hdb2]
        simp
    · exact absurd (congrArg Prod.fst hreg) (by simp)
  · intro su tok hlog
    rw [login] at hlog
    split at hlog
    · split at hlog
      · exact absurd hlog (by simp)
      · rename_i heq
        split at hlog
        · exact absurd hlog (by simp)
        · rename_i v hf
          split at hlog
          · simp only [Response.okLogin.injEq] at hlog
            exact ⟨v, List.mem_of_find?_eq_some hf, hlog.2.1.symm⟩
          · exact absurd hlog (by simp)
    · exact absurd hlog (by simp)

/-- C5 witness: a concrete register and a concrete login whose returned
account objects are sanitized stored accounts. -/
theorem c5_sanitized_responses_witness :
    (∃ v ∈ dbAliceBob.users, sanitizeUser bobNewU = sanitizeUser v) ∧
    (∃ v ∈ dbAlice.users, sanitizeUser aliceU = sanitizeUser v) := by
  constructor
  · exact (c5_sanitized_responses aliceU
      ⟨some "bob", some "bob@mail", some "pw"⟩ none "sig"
      "eeeeeeeeeeeeeeeeeeeeeeee" 1 dbAlice).2.1
      (sanitizeUser bobNewU) dbAliceBob (by decide)
  · exact (c5_sanitized_responses aliceU
      ⟨some "alice", none, some "right"⟩ (some "sec") "sig" "x" 0
      dbAlice).2.2 (sanitizeUser aliceU) "sig" (by decide)

/-- C3: with an identifier and password present and a secret configured,
login answers the identical 401 `"Invalid credentials"` both when no
account matches the identifier and when an account matches but the
password fails verification; it returns the sanitized account and a
signed token exactly when lookup and password verification both
succeed. -/
theorem c3_login_no_enumeration (body : AuthBody) (secret : Option String)
    (signed : String) (db : DB) (ident pw s : String)
    (hident : jsString? (body.username <|> body.email) = some ident)
    (hpw : jsString? body.password = some pw)
    (hs : jsString? secret = some s) :
    ((∀ u ∈ db.users, ¬(u.username = ident ∨ u.email = ident)) →
      login body secret signed db = .err 401 "Invalid credentials") ∧
    (∀ u, db.users.find? (fun v => v.username == ident || v.email == ident)
        = some u →
      comparePassword pw u.password = false →
      login body secret signed db = .err 401 "Invalid credentials") ∧
    (∀ u, db.users.find? (fun v => v.username == ident || v.email == ident)
        = some u →
      comparePassword pw u.password = true →
      login body secret signed db = .okLogin 200 (sanitizeUser u) signed) ∧
    (∀ su tok, login body secret signed db = .okLogin 200 su tok →
      ∃ u, db.users.find? (fun v => v.username == ident || v.email == ident)
          = some u ∧ comparePassword pw u.password = true) := by
  refine ⟨?_, ?_, ?_, ?_⟩
  · intro habs
    have hf : db.users.find? (fun v => v.username == ident || v.email == ident)
        = none :=
      List.find?_eq_none.mpr (fun v hv => by simpa using habs v hv)
    simp [login, hident, hpw, hs, hf]
  · intro u hf hcmp
    simp [login, hident, hpw, hs, hf, hcmp]
  · intro u hf hcmp
    simp [login, hident, hpw, hs, hf, hcmp]
  · intro su tok hlog
    simp only [login, hident, hpw, hs] at hlog
    rcases hf : db.users.find? (fun v => v.username == ident || v.email == ident)
        with _ | u <;> simp only [hf] at hlog
    · exact absurd hlog (by simp)
    · by_cases hcmp : comparePassword pw u.password = true
      · exact ⟨u, hf, hcmp⟩
      · rw [if_neg hcmp] at hlog
        exact absurd hlog (by simp)

/-- C3 witness: at a concrete store, a nonexistent identifier and a wrong
password produce the same response, and the right password logs in. -/
theorem c3_login_no_enumeration_witness :
    login ⟨some "nobody", none, some "pw"⟩ (some "sec") "sig" dbAlice
      = .err 401 "Invalid credentials" ∧
    login ⟨some "alice", none, some "wrong"⟩ (some "sec") "sig" dbAlice
      = .err 401 "Invalid credentials" ∧
    login ⟨some "alice", none, some "right"⟩ (some "sec") "sig" dbAlice
      = .okLogin 200 (sanitizeUser aliceU) "sig" ∧
    (∃ u, dbAlice.users.find?
        (fun v => v.username == "alice" || v.email == "alice") = some u ∧
      comparePassword "right" u.password = true) := by
  refine ⟨?_, ?_, ?_, ?_⟩
  · exact (c3_login_no_enumeration ⟨some "nobody", none, some "pw"⟩
      (some "sec") "sig" dbAlice "nobody" "pw" "sec"
      (by decide) (by decide) (by decide)).1 (by decide)
  · exact (c3_login_no_enumeration ⟨some "alice", none, some "wrong"⟩
      (some "sec") "sig" dbAlice "alice" "wrong" "sec"
      (by decide) (by decide) (by decide)).2.1 aliceU (by decide) (by decide)
  · exact (c3_login_no_enumeration ⟨some "alice", none, some "right"⟩
      (some "sec") "sig" dbAlice "alice" "right" "sec"
      (by decide) (by decide) (by decide)).2.2.1 aliceU (by decide) (by decide)
  · exact (c3_login_no_enumeration ⟨some "alice", none, some "right"⟩
      (some "sec") "sig" dbAlice "alice" "right" "sec"
      (by decide) (by decide) (by decide)).2.2.2 (sanitizeUser aliceU) "sig"
      (by decide)

/-- C4: with all three fields present, registration answers 409
`"User already exists"` and leaves the store unchanged when some stored
account already has the username or the email; otherwise it hashes the
password, inserts the account, and returns it without the password
hash. -/
theorem c4_register_unique (body : AuthBody) (salt : Nat) (freshId : String)
    (db : DB) (un em pw : String)
    (hun : jsString? body.username = some un)
    (hem : jsString? body.email = some em)
    (hpw : jsString? body.password = some pw) :
    ((∃ u ∈ db.users, u.username = un ∨ u.email = em) →
      register body salt freshId db = (.err 409 "User already exists", db)) ∧
    ((∀ u ∈ db.users, ¬(u.username = un ∨ u.email = em)) →
      register body salt freshId db =
        (.okUser 201 (sanitizeUser
            { _id := freshId, username := un, email := em
              password := hashPassword salt pw }),
         { db with users := db.users ++
            [{ _id := freshId, username := un, email := em
               password := hashPassword salt pw }] })) := by
  constructor
  · intro hex
    have hsome : (db.users.find? (fun v => v.username == un || v.email == em)).isSome := by
      refine List.find?_isSome.mpr ?_
      obtain ⟨u, hu, hor⟩ := hex
      exact ⟨u, hu, by simpa using hor⟩
    rcases hf : db.users.find? (fun v => v.username == un || v.email == em)
        with _ | v
    · rw [hf] at hsome
      simp at hsome
    · simp [register, hun, hem, hpw, hf]
  · intro habs
    have hf : db.users.find? (fun v => v.username == un || v.email == em)
        = none :=
      List.find?_eq_none.mpr (fun v hv => by simpa using habs v hv)
    simp [register, hun, hem, hpw, hf]

/-- C4 witness: re-registering a taken username yields 409 with the store
unchanged; a fresh username and email insert the hashed account and
return it sanitized. -/
theorem c4_register_unique_witness :
    register ⟨some "alice", some "other@mail", some "pw"⟩ 1
        "eeeeeeeeeeeeeeeeeeeeeeee" dbAlice
      = (.err 409 "User already exists", dbAlice) ∧
    register ⟨some "bob", some "bob@mail", some "pw"⟩ 1
        "eeeeeeeeeeeeeeeeeeeeeeee" dbAlice
      = (.okUser 201 (sanitizeUser bobNewU), dbAliceBob) := by
  constructor
  · exact (c4_register_unique ⟨some "alice", some "other@mail", some "pw"⟩ 1
      "eeeeeeeeeeeeeeeeeeeeeeee" dbAlice "alice" "other@mail" "pw"
      (by decide) (by decide) (by decide)).1 (by decide)
  · exact (c4_register_unique ⟨some "bob", some "bob@mail", some "pw"⟩ 1
      "eeeeeeeeeeeeeeeeeeeeeeee" dbAlice "bob" "bob@mail" "pw"
      (by decide) (by decide) (by decide)).2 (by decide)

/-- C6: the authorization gate answers 401 `"Missing token"` when no
bearer token is present, 500 `"JWT secret not configured"` when a token
is present but no signing secret is configured, 401 `"Invalid token"`
when token and secret are present but verification fails, and admits the
request otherwise. -/
theorem c6_auth_gate (verify : JwtVerify) (secret authHeader : Option String) :
    (extractToken authHeader = none →
      authErrResponse (requireAuth verify secret authHeader)
        = some (.err 401 "Missing token")) ∧
    (∀ t, extractToken authHeader = some t → jsString? secret = none →
      authErrResponse (requireAuth verify secret authHeader)
        = some (.err 500 "JWT secret not configured")) ∧
    (∀ t s, extractToken authHeader = some t → jsString? secret = some s →
      verify t s = none →
      authErrResponse (requireAuth verify secret authHeader)
        = some (.err 401 "Invalid token")) ∧
    (∀ t s p, extractToken authHeader = some t → jsString? secret = some s →
      verify t s = some p →
      authErrResponse (requireAuth verify secret authHeader) = none) := by
  refine ⟨?_, ?_, ?_, ?_⟩
  · intro h
    rcases jsString?_eq_none h with hb | hb <;>
      simp [requireAuth, hb, authErrResponse]
  · intro t ht hsec
    obtain ⟨hb, htne⟩ := jsString?_eq_some ht
    rcases jsString?_eq_none hsec with hc | hc <;>
      simp [requireAuth, hb, htne, hc, authErrResponse]
  · intro t s ht hs hv
    obtain ⟨hb, htne⟩ := jsString?_eq_some ht
    obtain ⟨hc, hsne⟩ := jsString?_eq_some hs
    simp [requireAuth, hb, htne, hc, hsne, hv, authErrResponse]
  · intro t s p ht hs hv
    rw [requireAuth_authorized verify secret authHeader t s p ht hs hv]
    rfl

/-- C6 witness: the four gate outcomes at concrete requests. -/
theorem c6_auth_gate_witness :
    authErrResponse (requireAuth verifyStub (some "sec") none)
      = some (.err 401 "Missing token") ∧
    authErrResponse (requireAuth verifyStub none (some "Bearer tok"))
      = some (.err 500 "JWT secret not configured") ∧
    authErrResponse (requireAuth verifyStub (some "sec") (some "Bearer bad"))
      = some (.err 401 "Invalid token") ∧
    authErrResponse (requireAuth verifyStub (some "sec") (some "Bearer tok"))
      = none := by
  refine ⟨?_, ?_, ?_, ?_⟩
  · exact (c6_auth_gate verifyStub (some "sec") none).1 (by decide)
  · exact (c6_auth_gate verifyStub none (some "Bearer tok")).2.1 "tok"
      (by decide) (by decide)
  · exact (c6_auth_gate verifyStub (some "sec") (some "Bearer bad")).2.2.1
      "bad" "sec" (by decide) (by decide) (by decide)
  · exact (c6_auth_gate verifyStub (some "sec") (some "Bearer tok")).2.2.2
      "tok" "sec" ⟨some "aaaaaaaaaaaaaaaaaaaaaaaa", some "alice"⟩
      (by decide) (by decide) (by decide)

/-- C7: on an authenticated partial update, the route answers 400
`"No valid fields to update"` with the store unchanged when no recognized
field is present, 400 `"Invalid recipe id"` with the store unchanged when
the id parameter is not a well-formed identifier, and otherwise accepts
any subset of the recognized fields, answering either the owner-scoped
404 or 200 with the updated record. -/
theorem c7_patch_field_validation (verify : JwtVerify)
    (secret authHeader : Option String) (body : RecipeBody)
    (idParam t s : String) (payload : JwtPayload) (db : DB)
    (ht : extractToken authHeader = some t)
    (hs : jsString? secret = some s)
    (hv : verify t s = some payload) :
    (updateEmpty body = true →
      patchRecipeRoute verify secret authHeader body idParam db
        = (.err 400 "No valid fields to update", db)) ∧
    (∀ sub, jsString? payload.sub = some sub → isValidObjectId sub = true →
      ¬body.ingredients = some .nonArray → updateEmpty body = false →
      isValidObjectId idParam = false →
      patchRecipeRoute verify secret authHeader body idParam db
        = (.err 400 "Invalid recipe id", db)) ∧
    (∀ sub, jsString? payload.sub = some sub → isValidObjectId sub = true →
      ¬body.ingredients = some .nonArray → updateEmpty body = false →
      isValidObjectId idParam = true →
      ((patchRecipeRoute verify secret authHeader body idParam db).1
          = .err 404 "Recipe not found" ∨
        ∃ r, (patchRecipeRoute verify secret authHeader body idParam db).1
          = .okRecipe 200 r)) := by
  refine ⟨?_, ?_, ?_⟩
  · intro hemp
    rw [patchRecipeRoute,
      withAuth_authorized verify secret authHeader t s payload _ db ht hs hv]
    have h4 := hemp
    simp only [updateEmpty, Bool.and_eq_true, beq_iff_eq] at h4
    have hing : body.ingredients = none := by tauto
    simp [patchRecipe, ht, hs, hing, hemp]
  · intro sub hsub hsubid hing hne hbad
    rw [patchRecipeRoute,
      withAuth_authorized verify secret authHeader t s payload _ db ht hs hv]
    simp [patchRecipe, ht, hs, hv, hsub, makeObjectId, hsubid, hing, hne, hbad]
  · intro sub hsub hsubid hing hne hid
    rw [patchRecipeRoute,
      withAuth_authorized verify secret authHeader t s payload _ db ht hs hv]
    simp only [patchRecipe, ht, hs, hv, hsub, makeObjectId, hsubid, hid,
      if_pos, if_neg]
    by_cases hz : (updateOneRecipe (fun r => r._id == idParam && r.ownerId == sub)
        (mkUpdate body) db.recipes).1 = 0
    · left
      simp [hing, hne, hz]
    · right
      obtain ⟨r0, hp, hmem⟩ := updateOneRecipe_mem_of_matched
        (fun r => r._id == idParam && r.ownerId == sub) (mkUpdate body)
        db.recipes hz
      have hid0 : ((applyUpdate (mkUpdate body) r0)._id == idParam) = true := by
        have hp' := hp
        simp only [Bool.and_eq_true] at hp'
        rw [applyUpdate_id]
        exact hp'.1
      have hfs : ((updateOneRecipe (fun r => r._id == idParam && r.ownerId == sub)
          (mkUpdate body) db.recipes).2.find? (fun r => r._id == idParam)).isSome :=
        List.find?_isSome.mpr ⟨_, hmem, hid0⟩
      rcases hf : (updateOneRecipe (fun r => r._id == idParam && r.ownerId == sub)
          (mkUpdate body) db.recipes).2.find? (fun r => r._id == idParam)
          with _ | u
      · rw [hf] at hfs
        simp at hfs
      · exact ⟨u, by simp [hing, hne, hz, hf]⟩

/-- C7 witness: an empty update body, a malformed id, and a well-formed
owned id at concrete stores. -/
theorem c7_patch_field_validation_witness :
    patchRecipeRoute verifyStub (some "sec") (some "Bearer tok")
        ⟨none, none, none, none⟩ "cccccccccccccccccccccccc" db1
      = (.err 400 "No valid fields to update", db1) ∧
    patchRecipeRoute verifyStub (some "sec") (some "Bearer tok")
        ⟨some "new", none, none, none⟩ "not-an-object-id" db1
      = (.err 400 "Invalid recipe id", db1) ∧
    ((patchRecipeRoute verifyStub (some "sec") (some "Bearer tok")
        ⟨some "new", none, none, none⟩ "cccccccccccccccccccccccc" dbOwned).1
        = .err 404 "Recipe not found" ∨
      ∃ r, (patchRecipeRoute verifyStub (some "sec") (some "Bearer tok")
        ⟨some "new", none, none, none⟩ "cccccccccccccccccccccccc" dbOwned).1
        = .okRecipe 200 r) := by
  refine ⟨?_, ?_, ?_⟩
  · exact (c7_patch_field_validation verifyStub (some "sec")
      (some "Bearer tok") ⟨none, none, none, none⟩
      "cccccccccccccccccccccccc" "tok" "sec"
      ⟨some "aaaaaaaaaaaaaaaaaaaaaaaa", some "alice"⟩ db1
      (by decide) (by decide) (by decide)).1 (by decide)
  · exact (c7_patch_field_validation verifyStub (some "sec")
      (some "Bearer tok") ⟨some "new", none, none, none⟩
      "not-an-object-id" "tok" "sec"
      ⟨some "aaaaaaaaaaaaaaaaaaaaaaaa", some "alice"⟩ db1
      (by decide) (by decide) (by decide)).2.1 "aaaaaaaaaaaaaaaaaaaaaaaa"
      (by decide) (by decide) (by decide) (by decide) (by decide)
  · exact (c7_patch_field_validation verifyStub (some "sec")
      (some "Bearer tok") ⟨some "new", none, none, none⟩
      "cccccccccccccccccccccccc" "tok" "sec"
      ⟨some "aaaaaaaaaaaaaaaaaaaaaaaa", some "alice"⟩ dbOwned
      (by decide) (by decide) (by decide)).2.2 "aaaaaaaaaaaaaaaaaaaaaaaa"
      (by decide) (by decide) (by decide) (by decide) (by decide)

/-- C8: an authenticated account deletion whose token subject matches no
stored account still deletes every recipe owned by that subject before
answering 404 `"User not found"`: the recipe deletions persist despite
the error response. -/
theorem c8_account_delete_not_atomic (verify : JwtVerify)
    (secret authHeader : Option String) (t s sub : String)
    (payload : JwtPayload) (db : DB)
    (ht : extractToken authHeader = some t)
    (hs : jsString? secret = some s)
    (hv : verify t s = some payload)
    (hsub : jsString? payload.sub = some sub)
    (hsubid : isValidObjectId sub = true)
    (hnouser : ∀ u ∈ db.users, ¬u._id = sub) :
    deleteAccountRoute verify secret authHeader db
      = (.err 404 "User not found",
         { users := db.users
           recipes := db.recipes.filter (fun r => !(r.ownerId == sub)) }) ∧
    (∀ r ∈ (deleteAccountRoute verify secret authHeader db).2.recipes,
      ¬r.ownerId = sub) := by
  have hpred : ∀ u ∈ db.users, (u._id == sub) = false := by
    intro u hu
    simpa using hnouser u hu
  have hdel := deleteOneUser_no_match (fun u => u._id == sub) db.users hpred
  have hmain : deleteAccountRoute verify secret authHeader db
      = (.err 404 "User not found",
         { users := db.users
           recipes := db.recipes.filter (fun r => !(r.ownerId == sub)) }) := by
    rw [deleteAccountRoute,
      withAuth_authorized verify secret authHeader t s payload _ db ht hs hv]
    simp [deleteAccount, ht, hs, hv, hsub, makeObjectId, hsubid, hdel]
  refine ⟨hmain, ?_⟩
  rw [hmain]
  intro r hr
  simp only [List.mem_filter, Bool.not_eq_eq_eq_not, Bool.not_true,
    beq_eq_false_iff_ne, ne_eq] at hr
  exact hr.2

/-- C8 witness: deleting the account of a stale token wipes the ghost
account's recipes and still answers 404. -/
theorem c8_account_delete_not_atomic_witness :
    deleteAccountRoute verifyStub (some "sec") (some "Bearer tok") dbGhost
      = (.err 404 "User not found", { users := [], recipes := [] }) := by
  have h := (c8_account_delete_not_atomic verifyStub (some "sec")
    (some "Bearer tok") "tok" "sec" "aaaaaaaaaaaaaaaaaaaaaaaa"
    ⟨some "aaaaaaaaaaaaaaaaaaaaaaaa", some "alice"⟩ dbGhost
    (by decide) (by decide) (by decide) (by decide) (by decide)
    (by decide)).1
  exact h.trans (by decide)

/-- C9: an authenticated recipe deletion with a malformed `:id` parameter
is answered by the route's generic 500 `"Recipe deletion failed"` (the
`ObjectId` constructor throws into the catch), not 400 or 404, and no
recipe is deleted — while the update route validates the same id and
answers 400 `"Invalid recipe id"`. -/
theorem c9_delete_malformed_id_500 (verify : JwtVerify)
    (secret authHeader : Option String) (body : RecipeBody)
    (idParam t s sub : String) (payload : JwtPayload) (db : DB)
    (ht : extractToken authHeader = some t)
    (hs : jsString? secret = some s)
    (hv : verify t s = some payload)
    (hsub : jsString? payload.sub = some sub)
    (hsubid : isValidObjectId sub = true)
    (hbad : isValidObjectId idParam = false)
    (hing : ¬body.ingredients = some .nonArray)
    (hne : updateEmpty body = false) :
    deleteRecipeRoute verify secret authHeader idParam db
      = (.err 500 "Recipe deletion failed", db) ∧
    patchRecipeRoute verify secret authHeader body idParam db
      = (.err 400 "Invalid recipe id", db) := by
  constructor
  · rw [deleteRecipeRoute,
      withAuth_authorized verify secret authHeader t s payload _ db ht hs hv]
    simp [deleteRecipe, ht, hs, hv, hsub, makeObjectId, hsubid, hbad]
  · rw [patchRecipeRoute,
      withAuth_authorized verify secret authHeader t s payload _ db ht hs hv]
    simp [patchRecipe, ht, hs, hv, hsub, makeObjectId, hsubid, hing, hne, hbad]

/-- C9 witness: the same malformed id is a 500 on delete and a 400 on
update, with the store untouched. -/
theorem c9_delete_malformed_id_500_witness :
    deleteRecipeRoute verifyStub (some "sec") (some "Bearer tok")
        "not-an-object-id" db1
      = (.err 500 "Recipe deletion failed", db1) ∧
    patchRecipeRoute verifyStub (some "sec") (some "Bearer tok")
        ⟨some "new", none, none, none⟩ "not-an-object-id" db1
      = (.err 400 "Invalid recipe id", db1) :=
  c9_delete_malformed_id_500 verifyStub (some "sec") (some "Bearer tok")
    ⟨some "new", none, none, none⟩ "not-an-object-id" "tok" "sec"
    "aaaaaaaaaaaaaaaaaaaaaaaa" ⟨some "aaaaaaaaaaaaaaaaaaaaaaaa", some "alice"⟩
    db1 (by decide) (by decide) (by decide) (by decide) (by decide)
    (by decide) (by decide) (by decide)

/-- C10: authenticated recipe creation validates by truthiness — an
empty-string title, description or instructions is rejected as missing
with 400 `"Missing or invalid fields"` and nothing is stored, while an
empty `ingredients` array satisfies the `Array.isArray` check and the
recipe is created and stored with an empty ingredient list. -/
theorem c10_create_truthiness (verify : JwtVerify)
    (secret authHeader : Option String) (body : RecipeBody)
    (freshId t s : String) (payload : JwtPayload) (db : DB)
    (ht : extractToken authHeader = some t)
    (hs : jsString? secret = some s)
    (hv : verify t s = some payload) :
    ((body.title = some "" ∨ body.description = some ""
        ∨ body.instructions = some "") →
      createRecipeRoute verify secret authHeader body freshId db
        = (.err 400 "Missing or invalid fields", db)) ∧
    (∀ sub, jsString? payload.sub = some sub → isValidObjectId sub = true →
      (jsString? body.title).isSome = true →
      (jsString? body.description).isSome = true →
      (jsString? body.instructions).isSome = true →
      body.ingredients = some (.arr []) →
      ∃ r, createRecipeRoute verify secret authHeader body freshId db
          = (.okRecipe 201 r, { db with recipes := db.recipes ++ [r] }) ∧
        r.ingredients = [] ∧ r.ownerId = sub ∧ r._id = freshId) := by
  constructor
  · intro hcase
    rw [createRecipeRoute,
      withAuth_authorized verify secret authHeader t s payload _ db ht hs hv]
    have hempty : jsString? (some "") = none := rfl
    rcases hcase with h | h | h <;>
      simp [createRecipe, ht, hs, h, hempty]
  · intro sub hsub hsubid hT hD hI hing
    rw [createRecipeRoute,
      withAuth_authorized verify secret authHeader t s payload _ db ht hs hv]
    simp only [createRecipe, ht, hs, hv, hsub, makeObjectId, hsubid, hing,
      hT, hD, hI, isArrayField, Bool.not_true, Bool.false_or, Bool.or_false,
      Bool.or_self, if_false, Bool.false_eq_true, if_neg, ite_false]
    refine ⟨_, rfl, rfl, rfl, rfl⟩

/-- C10 witness: an empty-string title is rejected while an empty
ingredients array is stored. -/
theorem c10_create_truthiness_witness :
    createRecipeRoute verifyStub (some "sec") (some "Bearer tok")
        ⟨some "", some "Hearty", some (.arr ["beef"]), some "Cook."⟩
        "ffffffffffffffffffffffff" db1
      = (.err 400 "Missing or invalid fields", db1) ∧
    (∃ r, createRecipeRoute verifyStub (some "sec") (some "Bearer tok")
        ⟨some "Stew", some "Hearty", some (.arr []), some "Cook."⟩
        "ffffffffffffffffffffffff" db1
      = (.okRecipe 201 r, { db1 with recipes := db1.recipes ++ [r] }) ∧
      r.ingredients = [] ∧ r.ownerId = "aaaaaaaaaaaaaaaaaaaaaaaa" ∧
      r._id = "ffffffffffffffffffffffff") := by
  constructor
  · exact (c10_create_truthiness verifyStub (some "sec") (some "Bearer tok")
      ⟨some "", some "Hearty", some (.arr ["beef"]), some "Cook."⟩
      "ffffffffffffffffffffffff" "tok" "sec"
      ⟨some "aaaaaaaaaaaaaaaaaaaaaaaa", some "alice"⟩ db1
      (by decide) (by decide) (by decide)).1 (Or.inl rfl)
  · exact (c10_create_truthiness verifyStub (some "sec") (some "Bearer tok")
      ⟨some "Stew", some "Hearty", some (.arr []), some "Cook."⟩
      "ffffffffffffffffffffffff" "tok" "sec"
      ⟨some "aaaaaaaaaaaaaaaaaaaaaaaa", some "alice"⟩ db1
      (by decide) (by decide) (by decide)).2 "aaaaaaaaaaaaaaaaaaaaaaaa"
      (by decide) (by decide) (by decide) (by decide) (by decide) (by decide)

end RecipeApi
